import Mathlib

/-!
# code-sandbox-mcp: the run_code and cleanup_container handlers

A shallow embedding of `tools/run_code.go` (`RunCodeSandbox`, `runInDocker`) and
`tools/cleanup.go` (`CleanupContainer`, `CleanupContainerTool`).

The Docker daemon, the host file system and the notification transport are the
environment of the program.  Each call to them is answered by an oracle that may
depend on the whole history of earlier calls, and every call is recorded, with its
answer, as an `Event`.  Control flow, error wrapping, deferred calls and the
polling loop are translated from the Go source.
-/

namespace CodeSandbox

/-! ## Go values -/

/-- The class that `errdefs` assigns to an error of the Docker client: the daemon answered
that the object does not exist, that the operation conflicts with the state of the
object, or anything else (errors of the operating system included). -/
inductive ErrClass where
  | notFound
  | conflict
  | other
deriving DecidableEq, Repr

/-- Go `error` values.  `base` is an error produced outside this package (Docker
client, operating system) with its class and its text; `wrap context cause` is
`fmt.Errorf(context + "%w", cause)`, which keeps the cause reachable by `Unwrap`. -/
inductive GoError where
  | base (cls : ErrClass) (msg : String)
  | wrap (context : String) (cause : GoError)
deriving DecidableEq, Repr

/-- The `Error()` text of an error: a wrapper prints its context followed by its cause. -/
def GoError.Error : GoError → String
  | .base _ msg => msg
  | .wrap context cause => context ++ cause.Error

/-- Answer of an environment call that yields a string (a path, a container id, the
demultiplexed log text) or fails. -/
inductive Answer where
  | ok (value : String)
  | fail (err : GoError)
deriving DecidableEq, Repr

/-- What the two channels of `cli.ContainerWait` deliver to a `select`: a status, a value
on the error channel (which may be nil), or nothing (in time). -/
inductive WaitResult where
  | status
  | err (e : Option GoError)
  | silent
deriving DecidableEq, Repr

/-- JSON values of tool arguments, as `encoding/json` decodes them into `interface{}`.
A number is decoded to `float64`; only integers of magnitude below `2 ^ 53` are
modelled: `float64` holds each of them exactly and the conversion `int(steps)` gives the
same integer. -/
inductive Value where
  | str (s : String)
  | num (n : Int) (exact : n.natAbs < 2 ^ 53)
  | bool (b : Bool)
  | null
deriving DecidableEq, Repr

/-- The type `mcp.ProgressToken` is an interface type (the source compares it both with
`nil` and with `""`): a value is nil or carries a dynamic value. -/
inductive ProgressToken where
  | nil
  | str (s : String)
  | num (n : Int)
deriving DecidableEq, Repr

/-- The `Meta` part of the request parameters. -/
structure RequestMeta where
  ProgressToken : ProgressToken
deriving DecidableEq, Repr

/-- The request `mcp.CallToolRequest`: `Params.Arguments` and `Params.Meta` (a pointer, so optional). -/
structure CallToolRequest where
  Arguments : List (String × Value)
  Meta : Option RequestMeta
deriving Repr

/-- The result `mcp.CallToolResult` with a single text content. -/
structure CallToolResult where
  Text : String
  IsError : Bool
deriving DecidableEq, Repr

/-- The constructor `mcp.NewToolResultError`. -/
def NewToolResultError (text : String) : CallToolResult := ⟨text, true⟩

/-- The constructor `mcp.NewToolResultText`. -/
def NewToolResultText (text : String) : CallToolResult := ⟨text, false⟩

/-- The fields of `languages.LanguageConfig` that the handlers read. -/
structure LanguageConfig where
  Image : String
  RunCommand : List String
  FileExtension : String
deriving DecidableEq, Repr

/-- The table `languages.SupportedLanguages`, a Go map taken as a parameter. -/
abbrev Catalog := List (String × LanguageConfig)

/-- Indexing a Go map: the zero value when the key is absent. -/
def Catalog.index (cat : Catalog) (language : String) : LanguageConfig :=
  match cat.lookup language with
  | some config => config
  | none => ⟨"", [], ""⟩

/-- The function `strconv.ParseBool`: `none` stands for the parse error. -/
def ParseBool (s : String) : Option Bool :=
  if s = "1" ∨ s = "t" ∨ s = "T" ∨ s = "TRUE" ∨ s = "true" ∨ s = "True" then some true
  else if s = "0" ∨ s = "f" ∨ s = "F" ∨ s = "FALSE" ∨ s = "false" ∨ s = "False" then some false
  else none

/-! ## The environment -/

/-- One call to the environment together with its answer. -/
inductive Event where
  | NewClient (err : Option GoError)
  | Close
  | ImagePull (image : String) (err : Option GoError)
  | ReaderClose
  | Drain (err : Option GoError)
  | MkdirTemp (pattern : String) (res : Answer)
  | WriteFile (dir name content : String) (err : Option GoError)
  | RemoveAll (dir : String) (err : Option GoError)
  | ContainerCreate (image : String) (cmd : List String) (workingDir : String)
      (binds : List String) (res : Answer)
  | ContainerStart (id : String) (err : Option GoError)
  | ContainerWait (id : String) (timeoutSeconds : Option Int) (res : WaitResult)
  | ContainerLogs (id : String) (err : Option GoError)
  | LogsClose
  | StdCopy (res : Answer)
  | ContainerInspect (id : String) (err : Option GoError)
  | ContainerRemove (id : String) (force : Bool) (err : Option GoError)
  | CleanupContainer (id : String) (waitForExit force : Bool) (timeoutSeconds : Int)
  | Print (line : String)
deriving DecidableEq, Repr

/-- The oracles.  The first argument of each is the history of all earlier events, so an
answer may depend on everything that happened before (a daemon with state). -/
structure Env where
  NewClient : List Event → Option GoError
  ImagePull : List Event → String → Option GoError
  Drain : List Event → Option GoError
  MkdirTemp : List Event → String → Answer
  WriteFile : List Event → String → String → String → Option GoError
  ContainerCreate : List Event → String → List String → String → List String → Answer
  ContainerStart : List Event → String → Option GoError
  ContainerWait : List Event → String → Option Int → WaitResult
  ContainerLogs : List Event → String → Option GoError
  StdCopy : List Event → Answer
  ContainerInspect : List Event → String → Option GoError
  ContainerRemove : List Event → String → Bool → Option GoError
  RemoveAll : List Event → String → Option GoError
  Sprint : Option Value → String

/-! ## tools/cleanup.go -/

/-- The optional wait of `CleanupContainer` (lines 26-43): nothing when `waitForExit` is
false; otherwise the select takes the error channel, the status channel or the timer,
and removal follows in every case. -/
def cleanupWait (env : Env) (hist : List Event) (containerID : String)
    (waitForExit : Bool) (timeoutSeconds : Int) : List Event :=
  if waitForExit then
    match env.ContainerWait hist containerID (some timeoutSeconds) with
    | .status =>
      [.ContainerWait containerID (some timeoutSeconds) .status,
       .Print ("Container " ++ containerID ++ " exited, proceeding with cleanup\n")]
    | .err e => [.ContainerWait containerID (some timeoutSeconds) (.err e)]
    | .silent =>
      [.ContainerWait containerID (some timeoutSeconds) .silent,
       .Print ("Timeout waiting for container " ++ containerID ++ " to exit\n")]
  else []

/-- The function `CleanupContainer` (cleanup.go lines 17-56): the returned error and the
events of the call.  The first event marks the invocation and its arguments. -/
def CleanupContainer (env : Env) (hist : List Event) (containerID : String)
    (waitForExit force : Bool) (timeoutSeconds : Int) : Option GoError × List Event :=
  let t0 := [Event.CleanupContainer containerID waitForExit force timeoutSeconds]
  match env.NewClient (hist ++ t0) with
  | some err =>
    (some (.wrap "Failed to create Docker client for cleanup: " err), t0 ++ [.NewClient (some err)])
  | none =>
    let t1 := t0 ++ [.NewClient none]
    let t2 := t1 ++ cleanupWait env (hist ++ t1) containerID waitForExit timeoutSeconds
    match env.ContainerRemove (hist ++ t2) containerID force with
    | some err =>
      (some (.wrap ("Failed to remove container " ++ containerID ++ ": ") err),
       t2 ++ [.ContainerRemove containerID force (some err), .Close])
    | none =>
      (none,
       t2 ++ [.ContainerRemove containerID force none,
              .Print ("Successfully removed container " ++ containerID ++ "\n"), .Close])

/-- The handler `CleanupContainerTool` (cleanup.go lines 59-88). -/
def CleanupContainerTool (env : Env) (hist : List Event) (request : CallToolRequest) :
    CallToolResult × List Event :=
  match request.Arguments.lookup "containerId" with
  | some (.str containerID) =>
    if containerID = "" then (NewToolResultError "Container ID is required", [])
    else
      let force : Bool :=
        match request.Arguments.lookup "force" with
        | some (.str forceStr) => decide (forceStr = "true")
        | _ => false
      match env.NewClient hist with
      | some err =>
        (NewToolResultError ("Failed to create Docker client: " ++ err.Error),
         [.NewClient (some err)])
      | none =>
        let t1 := [Event.NewClient none]
        match env.ContainerInspect (hist ++ t1) containerID with
        | some err =>
          (NewToolResultError ("Container " ++ containerID ++ " not found: " ++ err.Error),
           t1 ++ [.ContainerInspect containerID (some err), .Close])
        | none =>
          let t2 := t1 ++ [.ContainerInspect containerID none]
          let c := CleanupContainer env (hist ++ t2) containerID false force 30
          match c.1 with
          | some err =>
            (NewToolResultError ("Failed to clean up container: " ++ err.Error),
             t2 ++ c.2 ++ [.Close])
          | none =>
            (NewToolResultText ("Successfully cleaned up container " ++ containerID),
             t2 ++ c.2 ++ [.Close])
  | _ => (NewToolResultError "Container ID is required", [])

/-! ## tools/run_code.go: runInDocker -/

/-- How a call of `runInDocker` ends: it returns its three results, it panics, or it
stays blocked in the `select` on the wait channels. -/
inductive Outcome where
  | returned (logs : String) (containerId : String) (err : Option GoError)
  | panicked (err : GoError)
  | blocked
deriving DecidableEq, Repr

/-- A finished (or blocked) call of `runInDocker`: its outcome, the events of the call in
order, and the temporary directories that exist on the host afterwards. -/
structure Run where
  outcome : Outcome
  trace : List Event
  dirs : List String
deriving DecidableEq, Repr

/-- Lines 211-229 of run_code.go: demultiplex the log stream, then the optional cleanup.
A cleanup error is only formatted, never returned. -/
def collectLogs (env : Env) (hist : List Event) (containerID cleanupVar : String) :
    Outcome × List Event :=
  match env.StdCopy hist with
  | .fail err =>
    (.returned "" containerID (some (.wrap "failed to copy container output: " err)),
     [.StdCopy (.fail err)])
  | .ok logs =>
    let t1 := [Event.StdCopy (.ok logs)]
    match ParseBool cleanupVar with
    | some true =>
      let c := CleanupContainer env (hist ++ t1) containerID false false 10
      (.returned logs containerID none, t1 ++ c.2)
    | none => (.returned logs containerID none, t1)
    | some false =>
      (.returned logs containerID none, t1 ++ [.Print "Cleanup feature is disabled"])

/-- Lines 194-229 of run_code.go: the select on the wait channels, log retrieval with
the deferred `out.Close()`, and the rest. -/
def waitAndCollect (env : Env) (hist : List Event) (containerID cleanupVar : String) :
    Outcome × List Event :=
  match env.ContainerWait hist containerID none with
  | .err (some err) => (.panicked err, [.ContainerWait containerID none (.err (some err))])
  | .silent => (.blocked, [.ContainerWait containerID none .silent])
  | r =>
    let t1 := [Event.ContainerWait containerID none r]
    match env.ContainerLogs (hist ++ t1) containerID with
    | some err =>
      (.returned "" containerID (some (.wrap "failed to get container logs: " err)),
       t1 ++ [.ContainerLogs containerID (some err)])
    | none =>
      let t2 := t1 ++ [.ContainerLogs containerID none]
      let c := collectLogs env (hist ++ t2) containerID cleanupVar
      (c.1, t2 ++ c.2 ++ [.LogsClose])

/-- Lines 168-229 of run_code.go: everything that runs while the temporary directory
exists, up to the point where the function leaves (deferred calls excluded, apart
from `out.Close()`). -/
def inWorkspace (cat : Catalog) (env : Env) (hist : List Event) (cmd : List String)
    (dockerImage code language cleanupVar tmpDir : String) : Outcome × List Event :=
  let name := "main." ++ (cat.index language).FileExtension
  match env.WriteFile hist tmpDir name code with
  | some err =>
    (.returned "" "" (some (.wrap "failed to write code to temporary file: " err)),
     [.WriteFile tmpDir name code (some err)])
  | none =>
    let t1 := [Event.WriteFile tmpDir name code none]
    match env.ContainerCreate (hist ++ t1) dockerImage cmd "/app" [tmpDir ++ ":/app"] with
    | .fail err =>
      (.returned "" "" (some (.wrap "failed to create container: " err)),
       t1 ++ [.ContainerCreate dockerImage cmd "/app" [tmpDir ++ ":/app"] (.fail err)])
    | .ok containerID =>
      let t2 := t1 ++ [.ContainerCreate dockerImage cmd "/app" [tmpDir ++ ":/app"] (.ok containerID)]
      match env.ContainerStart (hist ++ t2) containerID with
      | some err =>
        (.returned "" containerID (some (.wrap "failed to start container: " err)),
         t2 ++ [.ContainerStart containerID (some err)])
      | none =>
        let t3 := t2 ++ [.ContainerStart containerID none]
        let c := waitAndCollect env (hist ++ t3) containerID cleanupVar
        (c.1, t3 ++ c.2)

/-- The function `runInDocker` (run_code.go lines 132-230).  Deferred calls run, last
registered first, when the function returns and also when it panics; they do not
run while it is blocked.  The deferred `os.RemoveAll(tmpDir)` is answered by the
environment like every other call: the directory is gone when the call succeeds and is
still there when it fails, and the function discards the error either way. -/
def runInDocker (cat : Catalog) (env : Env) (hist : List Event) (dirs : List String)
    (cmd : List String) (dockerImage code language cleanupVar : String) : Run :=
  match env.NewClient hist with
  | some err =>
    ⟨.returned "" "" (some (.wrap "failed to create Docker client: " err)),
     [.NewClient (some err)], dirs⟩
  | none =>
    let t1 := [Event.NewClient none]
    match env.ImagePull (hist ++ t1) dockerImage with
    | some err =>
      ⟨.returned "" "" (some (.wrap ("failed to pull Docker image " ++ dockerImage ++ ": ") err)),
       t1 ++ [.ImagePull dockerImage (some err), .Close], dirs⟩
    | none =>
      let t2 := t1 ++ [.ImagePull dockerImage none]
      match env.Drain (hist ++ t2) with
      | some err =>
        ⟨.returned "" "" (some (.wrap "failed to copy Docker image pull output: " err)),
         t2 ++ [.Drain (some err), .ReaderClose, .Close], dirs⟩
      | none =>
        let t3 := t2 ++ [.Drain none]
        match env.MkdirTemp (hist ++ t3) "docker-sandbox-*" with
        | .fail err =>
          ⟨.returned "" "" (some (.wrap "failed to create temporary directory: " err)),
           t3 ++ [.MkdirTemp "docker-sandbox-*" (.fail err), .ReaderClose, .Close], dirs⟩
        | .ok tmpDir =>
          let t4 := t3 ++ [.MkdirTemp "docker-sandbox-*" (.ok tmpDir)]
          let body := inWorkspace cat env (hist ++ t4) cmd dockerImage code language cleanupVar tmpDir
          match body.1 with
          | .blocked => ⟨.blocked, t4 ++ body.2, dirs ++ [tmpDir]⟩
          | o =>
            let t5 := t4 ++ body.2
            match env.RemoveAll (hist ++ t5) tmpDir with
            | some err =>
              ⟨o, t5 ++ [.RemoveAll tmpDir (some err), .ReaderClose, .Close], dirs ++ [tmpDir]⟩
            | none =>
              ⟨o, t5 ++ [.RemoveAll tmpDir none, .ReaderClose, .Close],
               (dirs ++ [tmpDir]).filter (fun d => decide (d ≠ tmpDir))⟩

/-! ## tools/run_code.go: RunCodeSandbox -/

/-- A notification handed to `server.SendNotificationToClient`: method
`notifications/progress` with its three parameters, or `notifications/error`. -/
inductive Notification where
  | progress (progress : Int) (total : Int) (progressToken : ProgressToken)
  | error (message : String)
deriving DecidableEq, Repr

/-- The transport.  A send is answered from the notifications handed over so far and the
one being sent, so every pattern of delivery failures is some `Server`. -/
structure Server where
  SendNotificationToClient : List Notification → Notification → Option GoError

/-- What the caller of `RunCodeSandbox` gets: a result, nothing because the panic of the
driver goroutine ended the process, or nothing because the loop is still polling. -/
inductive Reply where
  | result (r : CallToolResult)
  | crash (err : GoError)
  | pending
deriving DecidableEq, Repr

/-- A call of `RunCodeSandbox`: the reply, every notification handed to the transport in
order, and the run of `runInDocker` when the goroutine was started. -/
structure Handled where
  reply : Reply
  sent : List Notification
  driver : Option Run
deriving DecidableEq, Repr

/-- The function `strings.ToValidUTF8(code, "")`.  A Lean `String` holds valid text only,
and on valid text the function is the identity. -/
def ToValidUTF8 (s : String) : String := s

/-- The `default` branch of the polling loop (lines 107-127), taken `ticks` times: after
each sleep of two seconds the progress value is advanced and sent; a failed send is
reported with a `notifications/error` and the loop goes on.  Returns all notifications
handed over so far.  The Go variable is a 64-bit `int`; it grows by at most 5 per tick,
so it is modelled by an unbounded integer. -/
def pollingTicks (server : Server) (total : Int) (progressToken : ProgressToken) :
    Nat → Int → List Notification → List Notification
  | 0, _, sent => sent
  | ticks + 1, progress, sent =>
    if progressToken ≠ .str "" then
      let progress := if progress ≥ 90 ∧ progress < 100 then progress + 1 else progress + 5
      let note := Notification.progress progress total progressToken
      match server.SendNotificationToClient sent note with
      | some err =>
        pollingTicks server total progressToken ticks progress
          (sent ++ [note, .error ("Failed to send progress: " ++ err.Error)])
      | none => pollingTicks server total progressToken ticks progress (sent ++ [note])
    else pollingTicks server total progressToken ticks progress sent

/-- Lines 24-27: `steps` is read as a `float64`, zero when absent or not a number, and
zero is replaced by 100; the result is `int(steps)`, the `total` of every notification.
On the numbers that `Value.num` holds the conversion is exact and stays within `int`. -/
def requestSteps (request : CallToolRequest) : Int :=
  let steps : Int :=
    match request.Arguments.lookup "steps" with
    | some (.num n _) => n
    | _ => 0
  if steps = 0 then 100 else steps

/-- Lines 29-32: the token is copied from the request when `Meta` and its token are not
nil; the variable is the nil interface value otherwise. -/
def requestToken (request : CallToolRequest) : ProgressToken :=
  match request.Meta with
  | some m => m.ProgressToken
  | none => .nil

/-- Lines 103-106: the result built from what `runInDocker` returned. -/
def driverResult (logs container : String) (err : Option GoError) : CallToolResult :=
  match err with
  | some e => NewToolResultError ("Error: " ++ e.Error)
  | none => NewToolResultText ("Container ID: " ++ container ++ "\n\nLogs: " ++ logs)

/-- The handler `RunCodeSandbox` (run_code.go lines 22-130).  `ticks` is the number of
times the loop finds the result channel empty before the goroutine that runs
`runInDocker` has delivered (or has panicked). -/
def RunCodeSandbox (cat : Catalog) (env : Env) (server : Server) (hist : List Event)
    (dirs : List String) (ticks : Nat) (request : CallToolRequest) : Handled :=
  let steps := requestSteps request
  let progressToken := requestToken request
  match request.Arguments.lookup "language" with
  | some (.str language) =>
    match request.Arguments.lookup "code" with
    | some (.str code) =>
      match request.Arguments.lookup "cleanup" with
      | some (.str cleanupVar) =>
        let config := cat.index language
        let first := Notification.progress 10 steps progressToken
        if progressToken ≠ .str "" ∧ (server.SendNotificationToClient [] first).isSome then
          ⟨.result ⟨"Could not send progress to client", false⟩, [first], none⟩
        else
          let sent0 := if progressToken ≠ .str "" then [first] else []
          let cmd := config.RunCommand
          let escapedCode := ToValidUTF8 code
          let run := runInDocker cat env hist dirs cmd config.Image escapedCode language cleanupVar
          let sent1 := pollingTicks server steps progressToken ticks 20 sent0
          match run.outcome with
          | .returned logs container err =>
            let sent2 := if progressToken ≠ .str "" then
                sent1 ++ [.progress 100 steps progressToken] else sent1
            ⟨.result (driverResult logs container err), sent2, some run⟩
          | .panicked e => ⟨.crash e, sent1, some run⟩
          | .blocked => ⟨.pending, sent1, some run⟩
      | _ => ⟨.result (NewToolResultError "Error parsing cleanupVar"), [], none⟩
    | _ => ⟨.result (NewToolResultError "language must be a string"), [], none⟩
  | v => ⟨.result (NewToolResultError ("Language not supported: " ++ env.Sprint v)), [], none⟩

/-- The `progress` values of the progress notifications, in the order they were sent. -/
def progressValues : List Notification → List Int
  | [] => []
  | .progress p _ _ :: rest => p :: progressValues rest
  | .error _ :: rest => progressValues rest

/-! ## A concrete environment -/

/-- A catalog with two languages. -/
def sampleCatalog : Catalog :=
  [("python", ⟨"python:3.12-slim-bookworm", ["python", "main.py"], "py"⟩),
   ("go", ⟨"golang:1.21-alpine", ["go", "run", "main.go"], "go"⟩)]

/-- The effect of one event on the existence of container `id`: a successful create of
that id makes it exist, a successful removal of that id ends it, nothing else matters. -/
def presentStep (id : String) (present : Bool) (e : Event) : Bool :=
  match e with
  | .ContainerCreate _ _ _ _ (.ok created) => if created = id then true else present
  | .ContainerRemove removed _ none => if removed = id then false else present
  | _ => present

/-- Whether container `id` exists after the events of `hist`: it was created and not
removed since. -/
def containerPresent (hist : List Event) (id : String) : Bool :=
  hist.foldl (presentStep id) false

/-- A daemon on which every step succeeds: an empty image reference is rejected, the
container is `c1`, it prints `hi`, the temporary directory can be removed, and
inspecting or removing a container that is not there fails with a not-found error.  `Sprint` is only given for the absent argument. -/
def sampleEnv : Env where
  NewClient := fun _ => none
  ImagePull := fun _ image =>
    if image = "" then some (.base .other "invalid reference format") else none
  Drain := fun _ => none
  MkdirTemp := fun _ _ => .ok "/tmp/docker-sandbox-1"
  WriteFile := fun _ _ _ _ => none
  ContainerCreate := fun _ _ _ _ _ => .ok "c1"
  ContainerStart := fun _ _ => none
  ContainerWait := fun _ _ _ => .status
  ContainerLogs := fun _ _ => none
  StdCopy := fun _ => .ok "hi\n"
  ContainerInspect := fun hist id =>
    if containerPresent hist id then none else some (.base .notFound ("No such container: " ++ id))
  ContainerRemove := fun hist id _ =>
    if containerPresent hist id then none else some (.base .notFound ("No such container: " ++ id))
  RemoveAll := fun _ _ => none
  Sprint := fun _ => "%!s(<nil>)"

/-- A transport that delivers every notification. -/
def reliableServer : Server := ⟨fun _ _ => none⟩

/-- A request for `print('hi')` in Python. -/
def sampleArguments : List (String × Value) :=
  [("code", .str "print('hi')"), ("language", .str "python"), ("cleanup", .str "false")]

/-- The sample request with a progress token. -/
def tokenRequest : CallToolRequest := ⟨sampleArguments, some ⟨.str "tok"⟩⟩

/-- The sample request without any `Meta`, hence without a progress token. -/
def plainRequest : CallToolRequest := ⟨sampleArguments, none⟩

/-- The sample request with a progress token and `steps` set to 50. -/
def stepsRequest : CallToolRequest := ⟨("steps", .num 50 (by decide)) :: sampleArguments, some ⟨.str "tok"⟩⟩

/-- A request for a language that is not in the catalog. -/
def brainfuckRequest : CallToolRequest :=
  ⟨[("code", .str "+."), ("language", .str "brainfuck"), ("cleanup", .str "false")], none⟩

/-- The daemon of `sampleEnv`, except that the wait subscription delivers an error. -/
def waitErrorEnv : Env :=
  { sampleEnv with ContainerWait := fun _ _ _ => .err (some (.base .other "connection reset")) }

/-- The daemon of `sampleEnv`, except that the container cannot be started. -/
def startFailEnv : Env :=
  { sampleEnv with ContainerStart := fun _ _ => some (.base .other "boom") }

/-- The daemon of `sampleEnv`, except that the logs cannot be fetched. -/
def logsFailEnv : Env :=
  { sampleEnv with ContainerLogs := fun _ _ => some (.base .other "boom") }

/-- The daemon of `sampleEnv`, except that the log stream cannot be demultiplexed. -/
def copyFailEnv : Env :=
  { sampleEnv with StdCopy := fun _ => .fail (.base .other "boom") }

/-- The daemon of `sampleEnv`, except that a removal without `force` is refused. -/
def busyEnv : Env :=
  { sampleEnv with
    ContainerRemove := fun _ _ force =>
      if force then none else some (.base .conflict "container is running") }

/-- A transport that fails to deliver the very first notification and delivers the rest. -/
def firstSendFails : Server :=
  ⟨fun sent _ => if sent = [] then some (.base .other "notification channel full or blocked") else none⟩

/-- Whether an event marks an invocation of `CleanupContainer`. -/
def isCleanupCall : Event → Bool
  | .CleanupContainer _ _ _ _ => true
  | _ => false

/-- Whether an event belongs to log collection (`ContainerLogs`, `StdCopy`). -/
def isLogCollection : Event → Bool
  | .ContainerLogs _ _ => true
  | .StdCopy _ => true
  | _ => false

/-- Whether an event is a call of `os.MkdirTemp`. -/
def isMkdirTemp : Event → Bool
  | .MkdirTemp _ _ => true
  | _ => false

/-- A transport that delivers the first notification and fails on every later one. -/
def laterSendsFail : Server :=
  ⟨fun sent _ => if sent = [] then none else some (.base .other "notification channel full or blocked")⟩

/-- Whether `part` occurs in `text` as a run of consecutive characters. -/
def mentions (text part : String) : Bool := decide (part.toList <:+: text.toList)

/-- The environment of `sampleEnv`, except that the temporary directory cannot be removed
(the container left an entry in it that the server may not unlink). -/
def stuckEnv : Env :=
  { sampleEnv with
    RemoveAll := fun _ _ =>
      some (.base .other "unlinkat /tmp/docker-sandbox-1/out: permission denied") }

/-- Whether an event is a call of `os.RemoveAll`. -/
def isRemoveAll : Event → Bool
  | .RemoveAll _ _ => true
  | _ => false

/-- C1: with a progress token and 25 polling ticks before the result arrives, the
progress values sent are 10, 25, ..., 100, 105 and then the final 100: the sequence is
not non-decreasing (for fewer than 25 ticks, on the same input, it is). -/
theorem progress_drops_after_25_ticks :
    progressValues (RunCodeSandbox sampleCatalog sampleEnv reliableServer [] [] 25 tokenRequest).sent
        = [10, 25, 30, 35, 40, 45, 50, 55, 60, 65, 70, 75, 80, 85, 90,
           91, 92, 93, 94, 95, 96, 97, 98, 99, 100, 105, 100] ∧
      ¬ List.Pairwise (fun a b => a ≤ b)
          (progressValues
            (RunCodeSandbox sampleCatalog sampleEnv reliableServer [] [] 25 tokenRequest).sent) ∧
      ∀ n < 25, List.Pairwise (fun a b => a ≤ b)
          (progressValues
            (RunCodeSandbox sampleCatalog sampleEnv reliableServer [] [] n tokenRequest).sent) := by
  decide

/-- C2: with `steps` set to 50 the final notification carries progress 100 and total 50,
so the final progress is not equal to the total. -/
theorem final_progress_is_100_not_total :
    (RunCodeSandbox sampleCatalog sampleEnv reliableServer [] [] 0 stepsRequest).sent
      = [.progress 10 50 (.str "tok"), .progress 100 50 (.str "tok")] := by
  decide

/-- C3: for the language `brainfuck`, which is not in the catalog, the driver is started
with the empty image and the empty command, a pull of the empty image is attempted, and
the error returned is the one of the failed pull. -/
theorem unknown_language_reaches_driver :
    sampleCatalog.lookup "brainfuck" = none ∧
    (RunCodeSandbox sampleCatalog sampleEnv reliableServer [] [] 0 brainfuckRequest).driver
      = some (runInDocker sampleCatalog sampleEnv [] [] [] "" "+." "brainfuck" "false") ∧
    (runInDocker sampleCatalog sampleEnv [] [] [] "" "+." "brainfuck" "false").trace
      = [.NewClient none, .ImagePull "" (some (.base .other "invalid reference format")), .Close] ∧
    (RunCodeSandbox sampleCatalog sampleEnv reliableServer [] [] 0 brainfuckRequest).reply
      = .result ⟨"Error: failed to pull Docker image : invalid reference format", true⟩ := by
  decide

/-- C4: when the wait subscription delivers an error, `runInDocker` panics instead of
returning, and `RunCodeSandbox` has no result to give: the process ends. -/
theorem wait_error_panics :
    (runInDocker sampleCatalog waitErrorEnv [] [] ["python", "main.py"]
        "python:3.12-slim-bookworm" "print('hi')" "python" "false").outcome
      = .panicked (.base .other "connection reset") ∧
    (RunCodeSandbox sampleCatalog waitErrorEnv reliableServer [] [] 0 tokenRequest).reply
      = .crash (.base .other "connection reset") := by
  decide

/-- C5: when the start of container `c1` fails, or its logs cannot be fetched or
demultiplexed, `runInDocker` returns the id `c1` with the error, but the result of
`RunCodeSandbox` is built from the error alone and does not mention `c1` (the result of
a successful run does). -/
theorem container_id_dropped_on_failure :
    (runInDocker sampleCatalog startFailEnv [] [] ["python", "main.py"]
        "python:3.12-slim-bookworm" "print('hi')" "python" "false").outcome
      = .returned "" "c1" (some (.wrap "failed to start container: " (.base .other "boom"))) ∧
    (RunCodeSandbox sampleCatalog startFailEnv reliableServer [] [] 0 plainRequest).reply
      = .result ⟨"Error: failed to start container: boom", true⟩ ∧
    (RunCodeSandbox sampleCatalog logsFailEnv reliableServer [] [] 0 plainRequest).reply
      = .result ⟨"Error: failed to get container logs: boom", true⟩ ∧
    (RunCodeSandbox sampleCatalog copyFailEnv reliableServer [] [] 0 plainRequest).reply
      = .result ⟨"Error: failed to copy container output: boom", true⟩ ∧
    mentions "Error: failed to start container: boom" "c1" = false ∧
    mentions "Error: failed to get container logs: boom" "c1" = false ∧
    mentions "Error: failed to copy container output: boom" "c1" = false ∧
    (RunCodeSandbox sampleCatalog sampleEnv reliableServer [] [] 0 plainRequest).reply
      = .result ⟨"Container ID: c1\n\nLogs: hi\n", false⟩ ∧
    mentions "Container ID: c1\n\nLogs: hi\n" "c1" = true := by
  decide

/-- C6: a request without `Meta`, hence without a progress token, still gets the initial,
the per-tick and the final progress notification, each with a nil token. -/
theorem notifications_sent_without_token :
    (RunCodeSandbox sampleCatalog sampleEnv reliableServer [] [] 1 plainRequest).sent
      = [.progress 10 100 .nil, .progress 25 100 .nil, .progress 100 100 .nil] := by
  decide

/-- C7, counterexample: when the initial notification cannot be delivered,
`RunCodeSandbox` returns at once, without starting `runInDocker`. -/
theorem initial_send_failure_skips_execution :
    RunCodeSandbox sampleCatalog sampleEnv firstSendFails [] [] 3 tokenRequest
      = ⟨.result ⟨"Could not send progress to client", false⟩,
         [.progress 10 100 (.str "tok")], none⟩ := by
  decide

/-! ## Shape of the traces -/

/-- An event of a class that a trace does not contain is not in the trace. -/
theorem not_mem_of_filter_nil (p : Event → Bool) (l : List Event) (e : Event)
    (hl : l.filter p = []) (he : p e = true) : e ∉ l := by
  intro hmem
  have : e ∈ l.filter p := List.mem_filter.mpr ⟨hmem, he⟩
  rw [hl] at this
  exact List.not_mem_nil e this

/-- The optional wait creates no directory. -/
theorem cleanupWait_filter_mkdir (env : Env) (hist : List Event) (id : String) (w : Bool)
    (t : Int) : (cleanupWait env hist id w t).filter isMkdirTemp = [] := by
  unfold cleanupWait
  split
  · split <;> simp [isMkdirTemp]
  · simp

/-- The optional wait does not invoke `CleanupContainer`. -/
theorem cleanupWait_filter_call (env : Env) (hist : List Event) (id : String) (w : Bool)
    (t : Int) : (cleanupWait env hist id w t).filter isCleanupCall = [] := by
  unfold cleanupWait
  split
  · split <;> simp [isCleanupCall]
  · simp

/-- The optional wait collects no logs. -/
theorem cleanupWait_filter_logs (env : Env) (hist : List Event) (id : String) (w : Bool)
    (t : Int) : (cleanupWait env hist id w t).filter isLogCollection = [] := by
  unfold cleanupWait
  split
  · split <;> simp [isLogCollection]
  · simp

/-- A cleanup creates no directory. -/
theorem CleanupContainer_filter_mkdir (env : Env) (hist : List Event) (id : String)
    (w f : Bool) (t : Int) :
    (CleanupContainer env hist id w f t).2.filter isMkdirTemp = [] := by
  unfold CleanupContainer
  simp only []
  split
  · simp [isMkdirTemp]
  · split <;> simp [isMkdirTemp, cleanupWait_filter_mkdir]

/-- The trace of a cleanup holds exactly one invocation mark, its own. -/
theorem CleanupContainer_filter_call (env : Env) (hist : List Event) (id : String)
    (w f : Bool) (t : Int) :
    (CleanupContainer env hist id w f t).2.filter isCleanupCall
      = [Event.CleanupContainer id w f t] := by
  unfold CleanupContainer
  simp only []
  split
  · simp [isCleanupCall]
  · split <;> simp [isCleanupCall, cleanupWait_filter_call]

/-- A cleanup collects no logs. -/
theorem CleanupContainer_filter_logs (env : Env) (hist : List Event) (id : String)
    (w f : Bool) (t : Int) :
    (CleanupContainer env hist id w f t).2.filter isLogCollection = [] := by
  unfold CleanupContainer
  simp only []
  split
  · simp [isLogCollection]
  · split <;> simp [isLogCollection, cleanupWait_filter_logs]

/-- Log demultiplexing and the cleanup that follows create no directory. -/
theorem collectLogs_filter_mkdir (env : Env) (hist : List Event) (id cv : String) :
    (collectLogs env hist id cv).2.filter isMkdirTemp = [] := by
  unfold collectLogs
  simp only []
  split
  · simp [isMkdirTemp]
  · split <;> simp [isMkdirTemp, CleanupContainer_filter_mkdir]

/-- Waiting and log collection create no directory. -/
theorem waitAndCollect_filter_mkdir (env : Env) (hist : List Event) (id cv : String) :
    (waitAndCollect env hist id cv).2.filter isMkdirTemp = [] := by
  unfold waitAndCollect
  simp only []
  split
  · simp [isMkdirTemp]
  · simp [isMkdirTemp]
  · split <;> simp [isMkdirTemp, collectLogs_filter_mkdir]

/-- Nothing that runs inside the workspace creates another temporary directory. -/
theorem inWorkspace_filter_mkdir (cat : Catalog) (env : Env) (hist : List Event)
    (cmd : List String) (image code language cv tmpDir : String) :
    (inWorkspace cat env hist cmd image code language cv tmpDir).2.filter isMkdirTemp = [] := by
  unfold inWorkspace
  simp only []
  split
  · simp [isMkdirTemp]
  · split
    · simp [isMkdirTemp]
    · split <;> simp [isMkdirTemp, waitAndCollect_filter_mkdir]

/-! ## The workspace directory -/

/-- The optional wait does not call `os.RemoveAll`. -/
theorem cleanupWait_filter_removeAll (env : Env) (hist : List Event) (id : String) (w : Bool)
    (t : Int) : (cleanupWait env hist id w t).filter isRemoveAll = [] := by
  unfold cleanupWait
  split
  · split <;> simp [isRemoveAll]
  · simp

/-- A cleanup does not call `os.RemoveAll`. -/
theorem CleanupContainer_filter_removeAll (env : Env) (hist : List Event) (id : String)
    (w f : Bool) (t : Int) :
    (CleanupContainer env hist id w f t).2.filter isRemoveAll = [] := by
  unfold CleanupContainer
  simp only []
  split
  · simp [isRemoveAll]
  · split <;> simp [isRemoveAll, cleanupWait_filter_removeAll]

/-- Log demultiplexing and the cleanup that follows do not call `os.RemoveAll`. -/
theorem collectLogs_filter_removeAll (env : Env) (hist : List Event) (id cv : String) :
    (collectLogs env hist id cv).2.filter isRemoveAll = [] := by
  unfold collectLogs
  simp only []
  split
  · simp [isRemoveAll]
  · split <;> simp [isRemoveAll, CleanupContainer_filter_removeAll]

/-- Waiting and log collection do not call `os.RemoveAll`. -/
theorem waitAndCollect_filter_removeAll (env : Env) (hist : List Event) (id cv : String) :
    (waitAndCollect env hist id cv).2.filter isRemoveAll = [] := by
  unfold waitAndCollect
  simp only []
  split
  · simp [isRemoveAll]
  · simp [isRemoveAll]
  · split <;> simp [isRemoveAll, collectLogs_filter_removeAll]

/-- Nothing that runs inside the workspace calls `os.RemoveAll`. -/
theorem inWorkspace_filter_removeAll (cat : Catalog) (env : Env) (hist : List Event)
    (cmd : List String) (image code language cv tmpDir : String) :
    (inWorkspace cat env hist cmd image code language cv tmpDir).2.filter isRemoveAll = [] := by
  unfold inWorkspace
  simp only []
  split
  · simp [isRemoveAll]
  · split
    · simp [isRemoveAll]
    · split <;> simp [isRemoveAll, waitAndCollect_filter_removeAll]

/-- C10, counterexample: in the run in which `os.RemoveAll` fails, the temporary directory
was created, `runInDocker` returns the logs, and the directory still exists. -/
theorem workspace_survives_failed_removal :
    Event.MkdirTemp "docker-sandbox-*" (.ok "/tmp/docker-sandbox-1") ∈
      (runInDocker sampleCatalog stuckEnv [] [] ["python", "main.py"]
        "python:3.12-slim-bookworm" "print('hi')" "python" "true").trace ∧
    (runInDocker sampleCatalog stuckEnv [] [] ["python", "main.py"]
        "python:3.12-slim-bookworm" "print('hi')" "python" "true").outcome
      = .returned "hi\n" "c1" none ∧
    Event.RemoveAll "/tmp/docker-sandbox-1"
        (some (.base .other "unlinkat /tmp/docker-sandbox-1/out: permission denied")) ∈
      (runInDocker sampleCatalog stuckEnv [] [] ["python", "main.py"]
        "python:3.12-slim-bookworm" "print('hi')" "python" "true").trace ∧
    "/tmp/docker-sandbox-1" ∈
      (runInDocker sampleCatalog stuckEnv [] [] ["python", "main.py"]
        "python:3.12-slim-bookworm" "print('hi')" "python" "true").dirs := by
  decide

/-- C10, amended: in every run of `runInDocker` that created the temporary directory and
that leaves the function (by returning, with or without an error, or by the panic on a
wait error), `os.RemoveAll` is called on that directory exactly once, after everything
else that uses the workspace and before the reader and the client are closed; the
directory no longer exists whenever that call succeeds. -/
theorem workspace_removal_attempted_on_exit (cat : Catalog) (env : Env) (hist : List Event)
    (dirs : List String) (cmd : List String) (image code language cleanupVar tmpDir : String)
    (hcreated : Event.MkdirTemp "docker-sandbox-*" (.ok tmpDir) ∈
      (runInDocker cat env hist dirs cmd image code language cleanupVar).trace)
    (hexit : (runInDocker cat env hist dirs cmd image code language cleanupVar).outcome
      ≠ .blocked) :
    ∃ pre,
      (runInDocker cat env hist dirs cmd image code language cleanupVar).trace
        = pre ++ [Event.RemoveAll tmpDir (env.RemoveAll (hist ++ pre) tmpDir),
            Event.ReaderClose, Event.Close] ∧
      pre.filter isRemoveAll = [] ∧
      (env.RemoveAll (hist ++ pre) tmpDir = none →
        tmpDir ∉ (runInDocker cat env hist dirs cmd image code language cleanupVar).dirs) := by
  generalize hr : runInDocker cat env hist dirs cmd image code language cleanupVar = r at *
  unfold runInDocker at hr
  simp only [] at hr
  split at hr
  · subst hr; simp at hcreated
  · split at hr
    · subst hr; simp at hcreated
    · split at hr
      · subst hr; simp at hcreated
      · split at hr
        · subst hr; simp at hcreated
        · rename_i tmp htmp
          have hb := inWorkspace_filter_mkdir cat env
            (hist ++ ([Event.NewClient none] ++ [Event.ImagePull image none] ++ [Event.Drain none]
              ++ [Event.MkdirTemp "docker-sandbox-*" (.ok tmp)])) cmd image code language cleanupVar tmp
          have hnot := not_mem_of_filter_nil isMkdirTemp _
            (Event.MkdirTemp "docker-sandbox-*" (.ok tmpDir)) hb rfl
          have hra := inWorkspace_filter_removeAll cat env
            (hist ++ ([Event.NewClient none] ++ [Event.ImagePull image none] ++ [Event.Drain none]
              ++ [Event.MkdirTemp "docker-sandbox-*" (.ok tmp)])) cmd image code language cleanupVar tmp
          split at hr
          · subst hr; simp at hexit
          · split at hr
            · rename_i err herr
              subst hr
              simp at hcreated hnot
              have heq : tmpDir = tmp := hcreated.resolve_right hnot
              subst heq
              refine ⟨[Event.NewClient none] ++ [Event.ImagePull image none]
                ++ [Event.Drain none] ++ [Event.MkdirTemp "docker-sandbox-*" (.ok tmpDir)]
                ++ (inWorkspace cat env
                  (hist ++ ([Event.NewClient none] ++ [Event.ImagePull image none]
                    ++ [Event.Drain none] ++ [Event.MkdirTemp "docker-sandbox-*" (.ok tmpDir)]))
                  cmd image code language cleanupVar tmpDir).2, ?_, ?_, ?_⟩
              · rw [herr]
              · simpa [List.filter_append, isRemoveAll] using hra
              · intro hnone
                rw [herr] at hnone
                cases hnone
            · rename_i herr
              subst hr
              simp at hcreated hnot
              have heq : tmpDir = tmp := hcreated.resolve_right hnot
              subst heq
              refine ⟨[Event.NewClient none] ++ [Event.ImagePull image none]
                ++ [Event.Drain none] ++ [Event.MkdirTemp "docker-sandbox-*" (.ok tmpDir)]
                ++ (inWorkspace cat env
                  (hist ++ ([Event.NewClient none] ++ [Event.ImagePull image none]
                    ++ [Event.Drain none] ++ [Event.MkdirTemp "docker-sandbox-*" (.ok tmpDir)]))
                  cmd image code language cleanupVar tmpDir).2, ?_, ?_, ?_⟩
              · rw [herr]
              · simpa [List.filter_append, isRemoveAll] using hra
              · intro _
                simp

/-- C10, witness: the run in which the wait subscription fails (the panic path) created
`/tmp/docker-sandbox-1`, left the function, called `os.RemoveAll` on it once, and the
directory is gone. -/
theorem workspace_removal_attempted_on_exit_witness :
    (Event.MkdirTemp "docker-sandbox-*" (.ok "/tmp/docker-sandbox-1") ∈
      (runInDocker sampleCatalog waitErrorEnv [] ["/tmp/other"] ["python", "main.py"]
        "python:3.12-slim-bookworm" "print('hi')" "python" "true").trace ∧
     (runInDocker sampleCatalog waitErrorEnv [] ["/tmp/other"] ["python", "main.py"]
        "python:3.12-slim-bookworm" "print('hi')" "python" "true").outcome ≠ .blocked) ∧
    (∃ pre,
      (runInDocker sampleCatalog waitErrorEnv [] ["/tmp/other"] ["python", "main.py"]
          "python:3.12-slim-bookworm" "print('hi')" "python" "true").trace
        = pre ++ [Event.RemoveAll "/tmp/docker-sandbox-1"
              (waitErrorEnv.RemoveAll ([] ++ pre) "/tmp/docker-sandbox-1"),
            Event.ReaderClose, Event.Close] ∧
      pre.filter isRemoveAll = [] ∧
      (waitErrorEnv.RemoveAll ([] ++ pre) "/tmp/docker-sandbox-1" = none →
        "/tmp/docker-sandbox-1" ∉
          (runInDocker sampleCatalog waitErrorEnv [] ["/tmp/other"] ["python", "main.py"]
            "python:3.12-slim-bookworm" "print('hi')" "python" "true").dirs)) ∧
    (runInDocker sampleCatalog waitErrorEnv [] ["/tmp/other"] ["python", "main.py"]
        "python:3.12-slim-bookworm" "print('hi')" "python" "true").dirs = ["/tmp/other"] :=
  ⟨⟨by decide, by decide⟩,
   workspace_removal_attempted_on_exit sampleCatalog waitErrorEnv [] ["/tmp/other"]
     ["python", "main.py"] "python:3.12-slim-bookworm" "print('hi')" "python" "true"
     "/tmp/docker-sandbox-1" (by decide) (by decide),
   by decide⟩

/-! ## Cleanup after log collection -/

/-- When the cleanup value parses as true and the stream was demultiplexed, the rest of
`runInDocker` is that event followed by the events of one cleanup. -/
theorem collectLogs_shape (env : Env) (hist : List Event) (id cv logs : String)
    (hclean : ParseBool cv = some true)
    (h : Event.StdCopy (.ok logs) ∈ (collectLogs env hist id cv).2) :
    collectLogs env hist id cv
      = (.returned logs id none,
         Event.StdCopy (.ok logs) ::
           (CleanupContainer env (hist ++ [Event.StdCopy (.ok logs)]) id false false 10).2) := by
  generalize hc : collectLogs env hist id cv = c at h
  unfold collectLogs at hc
  simp only [hclean] at hc
  split at hc
  · subst hc; simp at h
  · rename_i got hgot
    have hno := not_mem_of_filter_nil isLogCollection _ (Event.StdCopy (.ok logs))
      (CleanupContainer_filter_logs env (hist ++ [Event.StdCopy (.ok got)]) id false false 10) rfl
    subst hc
    simp at h
    have heq : logs = got := h.resolve_right hno
    subst heq
    simp

/-- The same for the part that starts with the wait. -/
theorem waitAndCollect_shape (env : Env) (hist : List Event) (id cv logs : String)
    (hclean : ParseBool cv = some true)
    (h : Event.StdCopy (.ok logs) ∈ (waitAndCollect env hist id cv).2) :
    ∃ r, waitAndCollect env hist id cv
      = (.returned logs id none,
         [Event.ContainerWait id none r, Event.ContainerLogs id none, Event.StdCopy (.ok logs)]
           ++ (CleanupContainer env
                (hist ++ [Event.ContainerWait id none r, Event.ContainerLogs id none,
                  Event.StdCopy (.ok logs)]) id false false 10).2
           ++ [Event.LogsClose]) := by
  generalize hc : waitAndCollect env hist id cv = c at h
  unfold waitAndCollect at hc
  simp only [] at hc
  split at hc
  · subst hc; simp at h
  · subst hc; simp at h
  · split at hc
    · subst hc; simp at h
    · subst hc
      simp at h
      have hs := collectLogs_shape env _ id cv logs hclean h
      refine ⟨env.ContainerWait hist id none, ?_⟩
      simp [hs]

/-- The same for everything that runs inside the workspace. -/
theorem inWorkspace_shape (cat : Catalog) (env : Env) (hist : List Event) (cmd : List String)
    (image code language cv tmpDir logs : String)
    (hclean : ParseBool cv = some true)
    (h : Event.StdCopy (.ok logs) ∈
      (inWorkspace cat env hist cmd image code language cv tmpDir).2) :
    ∃ id pre, inWorkspace cat env hist cmd image code language cv tmpDir
        = (.returned logs id none,
           pre ++ (CleanupContainer env (hist ++ pre) id false false 10).2 ++ [Event.LogsClose]) ∧
      Event.ContainerLogs id none ∈ pre ∧ Event.StdCopy (.ok logs) ∈ pre ∧
      pre.filter isCleanupCall = [] := by
  generalize hc : inWorkspace cat env hist cmd image code language cv tmpDir = c at h
  unfold inWorkspace at hc
  simp only [] at hc
  split at hc
  · subst hc; simp at h
  · split at hc
    · subst hc; simp at h
    · rename_i id hid
      split at hc
      · subst hc; simp at h
      · subst hc
        simp at h
        obtain ⟨r, hs⟩ := waitAndCollect_shape env _ id cv logs hclean h
        refine ⟨id, [Event.WriteFile tmpDir ("main." ++ (cat.index language).FileExtension) code none,
          Event.ContainerCreate image cmd "/app" [tmpDir ++ ":/app"] (.ok id),
          Event.ContainerStart id none, Event.ContainerWait id none r,
          Event.ContainerLogs id none, Event.StdCopy (.ok logs)], ?_, ?_, ?_, ?_⟩
        · simp [hs]
        · simp
        · simp
        · simp [isCleanupCall]

/-- C9: in every run of `runInDocker` in which the logs were collected and the cleanup
value parses as true, `CleanupContainer` is invoked exactly once, with
`waitForExit=false`, `force=false` and `timeoutSeconds=10`, after all log collection;
and whatever that cleanup returns, `runInDocker` returns the collected logs and the
container id with a nil error. -/
theorem cleanup_once_after_logs (cat : Catalog) (env : Env) (hist : List Event)
    (dirs : List String) (cmd : List String) (image code language cleanupVar logs : String)
    (hlogs : Event.StdCopy (.ok logs) ∈
      (runInDocker cat env hist dirs cmd image code language cleanupVar).trace)
    (hclean : ParseBool cleanupVar = some true) :
    ∃ id pre post,
      (runInDocker cat env hist dirs cmd image code language cleanupVar).trace
        = pre ++ (CleanupContainer env (hist ++ pre) id false false 10).2 ++ post ∧
      Event.ContainerLogs id none ∈ pre ∧ Event.StdCopy (.ok logs) ∈ pre ∧
      (runInDocker cat env hist dirs cmd image code language cleanupVar).trace.filter isCleanupCall
        = [Event.CleanupContainer id false false 10] ∧
      ((CleanupContainer env (hist ++ pre) id false false 10).2 ++ post).filter isLogCollection
        = [] ∧
      (runInDocker cat env hist dirs cmd image code language cleanupVar).outcome
        = .returned logs id none := by
  generalize hr : runInDocker cat env hist dirs cmd image code language cleanupVar = r at *
  unfold runInDocker at hr
  simp only [] at hr
  split at hr
  · subst hr; simp at hlogs
  · split at hr
    · subst hr; simp at hlogs
    · split at hr
      · subst hr; simp at hlogs
      · split at hr
        · subst hr; simp at hlogs
        · rename_i tmp htmp
          have hin : Event.StdCopy (.ok logs) ∈
              (inWorkspace cat env
                (hist ++ [Event.NewClient none, Event.ImagePull image none, Event.Drain none,
                  Event.MkdirTemp "docker-sandbox-*" (.ok tmp)])
                cmd image code language cleanupVar tmp).2 := by
            split at hr
            · subst hr; simpa using hlogs
            · split at hr <;> subst hr <;> simpa using hlogs
          obtain ⟨id, pre, hs, hl, hc, hf⟩ :=
            inWorkspace_shape cat env _ cmd image code language cleanupVar tmp logs hclean hin
          simp only [List.append_assoc, List.singleton_append, List.cons_append,
            List.nil_append] at hr
          rw [hs] at hr
          simp only [] at hr
          split at hr
          · rename_i err _
            subst hr
            refine ⟨id, [Event.NewClient none, Event.ImagePull image none, Event.Drain none,
              Event.MkdirTemp "docker-sandbox-*" (.ok tmp)] ++ pre,
              [Event.LogsClose, Event.RemoveAll tmp (some err), Event.ReaderClose, Event.Close],
              ?_, ?_, ?_, ?_, ?_, ?_⟩
            · simp
            · simp [hl]
            · simp [hc]
            · simp [List.filter_append, hf, isCleanupCall, CleanupContainer_filter_call]
            · simp [List.filter_append, isLogCollection, CleanupContainer_filter_logs]
            · rfl
          · subst hr
            refine ⟨id, [Event.NewClient none, Event.ImagePull image none, Event.Drain none,
              Event.MkdirTemp "docker-sandbox-*" (.ok tmp)] ++ pre,
              [Event.LogsClose, Event.RemoveAll tmp none, Event.ReaderClose, Event.Close],
              ?_, ?_, ?_, ?_, ?_, ?_⟩
            · simp
            · simp [hl]
            · simp [hc]
            · simp [List.filter_append, hf, isCleanupCall, CleanupContainer_filter_call]
            · simp [List.filter_append, isLogCollection, CleanupContainer_filter_logs]
            · rfl

/-- C9, witness: on a daemon that refuses the removal, the run with cleanup `true`
collects the logs `hi`, calls `CleanupContainer` once and still returns the logs. -/
theorem cleanup_once_after_logs_witness :
    (Event.StdCopy (.ok "hi\n") ∈
      (runInDocker sampleCatalog busyEnv [] [] ["python", "main.py"]
        "python:3.12-slim-bookworm" "print('hi')" "python" "true").trace ∧
     ParseBool "true" = some true) ∧
    ∃ id pre post,
      (runInDocker sampleCatalog busyEnv [] [] ["python", "main.py"]
          "python:3.12-slim-bookworm" "print('hi')" "python" "true").trace
        = pre ++ (CleanupContainer busyEnv ([] ++ pre) id false false 10).2 ++ post ∧
      Event.ContainerLogs id none ∈ pre ∧ Event.StdCopy (.ok "hi\n") ∈ pre ∧
      (runInDocker sampleCatalog busyEnv [] [] ["python", "main.py"]
          "python:3.12-slim-bookworm" "print('hi')" "python" "true").trace.filter isCleanupCall
        = [Event.CleanupContainer id false false 10] ∧
      ((CleanupContainer busyEnv ([] ++ pre) id false false 10).2 ++ post).filter isLogCollection
        = [] ∧
      (runInDocker sampleCatalog busyEnv [] [] ["python", "main.py"]
          "python:3.12-slim-bookworm" "print('hi')" "python" "true").outcome
        = .returned "hi\n" id none :=
  ⟨⟨by decide, by decide⟩,
   cleanup_once_after_logs sampleCatalog busyEnv [] [] ["python", "main.py"]
     "python:3.12-slim-bookworm" "print('hi')" "python" "true" "hi\n" (by decide) (by decide)⟩

/-! ## Delivery failures -/

/-- C7, amended: for a request with string `language`, `code` and `cleanup` arguments and
any behaviour of the transport on later notifications: when the initial notification is
delivered, or none is sent because the token is the empty string, `runInDocker` is
started and the reply is the one built from its outcome; when the initial notification
cannot be delivered, the reply is the text `Could not send progress to client`, not
marked as an error, and `runInDocker` is not started. -/
theorem later_delivery_failures_keep_execution (cat : Catalog) (env : Env) (server : Server)
    (hist : List Event) (dirs : List String) (ticks : Nat) (request : CallToolRequest)
    (language code cleanupVar : String)
    (hl : request.Arguments.lookup "language" = some (.str language))
    (hc : request.Arguments.lookup "code" = some (.str code))
    (hv : request.Arguments.lookup "cleanup" = some (.str cleanupVar)) :
    ((requestToken request = .str "" ∨
        server.SendNotificationToClient []
          (.progress 10 (requestSteps request) (requestToken request)) = none) →
      (RunCodeSandbox cat env server hist dirs ticks request).driver
        = some (runInDocker cat env hist dirs (cat.index language).RunCommand
            (cat.index language).Image (ToValidUTF8 code) language cleanupVar) ∧
      (∀ logs container err,
        (runInDocker cat env hist dirs (cat.index language).RunCommand
            (cat.index language).Image (ToValidUTF8 code) language cleanupVar).outcome
          = .returned logs container err →
        (RunCodeSandbox cat env server hist dirs ticks request).reply
          = .result (driverResult logs container err)) ∧
      (∀ e,
        (runInDocker cat env hist dirs (cat.index language).RunCommand
            (cat.index language).Image (ToValidUTF8 code) language cleanupVar).outcome
          = .panicked e →
        (RunCodeSandbox cat env server hist dirs ticks request).reply = .crash e)) ∧
    ((requestToken request ≠ .str "" ∧
        server.SendNotificationToClient []
          (.progress 10 (requestSteps request) (requestToken request)) ≠ none) →
      (RunCodeSandbox cat env server hist dirs ticks request).driver = none ∧
      (RunCodeSandbox cat env server hist dirs ticks request).reply
        = .result ⟨"Could not send progress to client", false⟩) := by
  unfold RunCodeSandbox
  simp only [hl, hc, hv]
  constructor
  · intro h
    have hcond : ¬ (requestToken request ≠ .str "" ∧
        (server.SendNotificationToClient []
          (.progress 10 (requestSteps request) (requestToken request))).isSome = true) := by
      rcases h with h | h
      · simp [h]
      · simp [h]
    rw [if_neg hcond]
    generalize runInDocker cat env hist dirs (cat.index language).RunCommand
      (cat.index language).Image (ToValidUTF8 code) language cleanupVar = run
    cases hout : run.outcome <;> simp
  · intro h
    have hcond : requestToken request ≠ .str "" ∧
        (server.SendNotificationToClient []
          (.progress 10 (requestSteps request) (requestToken request))).isSome = true := by
      refine ⟨h.1, ?_⟩
      cases hs : server.SendNotificationToClient []
          (.progress 10 (requestSteps request) (requestToken request)) with
      | none => exact absurd hs h.2
      | some e => rfl
    rw [if_pos hcond]
    exact ⟨rfl, rfl⟩

/-- C7, witness: with a token, a delivered initial notification and every later
notification failing, the driver runs and the reply is built from what it returned. -/
theorem later_delivery_failures_keep_execution_witness :
    (tokenRequest.Arguments.lookup "language" = some (.str "python") ∧
     tokenRequest.Arguments.lookup "code" = some (.str "print('hi')") ∧
     tokenRequest.Arguments.lookup "cleanup" = some (.str "false")) ∧
    (RunCodeSandbox sampleCatalog sampleEnv laterSendsFail [] [] 2 tokenRequest).driver
      = some (runInDocker sampleCatalog sampleEnv [] [] (sampleCatalog.index "python").RunCommand
          (sampleCatalog.index "python").Image (ToValidUTF8 "print('hi')") "python" "false") ∧
    (RunCodeSandbox sampleCatalog sampleEnv laterSendsFail [] [] 2 tokenRequest).reply
      = .result (driverResult "hi\n" "c1" none) ∧
    (RunCodeSandbox sampleCatalog sampleEnv laterSendsFail [] [] 2 tokenRequest).sent
      = [.progress 10 100 (.str "tok"),
         .progress 25 100 (.str "tok"),
         .error "Failed to send progress: notification channel full or blocked",
         .progress 30 100 (.str "tok"),
         .error "Failed to send progress: notification channel full or blocked",
         .progress 100 100 (.str "tok")] :=
  ⟨⟨by decide, by decide, by decide⟩,
   ((later_delivery_failures_keep_execution sampleCatalog sampleEnv laterSendsFail [] [] 2
      tokenRequest "python" "print('hi')" "false" (by decide) (by decide) (by decide)).1
      (Or.inr (by decide))).1,
   ((later_delivery_failures_keep_execution sampleCatalog sampleEnv laterSendsFail [] [] 2
      tokenRequest "python" "print('hi')" "false" (by decide) (by decide) (by decide)).1
      (Or.inr (by decide))).2.1 "hi\n" "c1" none (by decide),
   by decide⟩

/-! ## Cleanup of a container that does not exist -/

end CodeSandbox

